import Mathlib

/-!
Shallow embedding of the two Python source files of this repository:

* adapters/HandleStockRequest.py — the stock request Lambda handler
  (function getStocksRequest);
* tests/integration/test_by_waiting.py — the integration test class
  TestMinimalPluginByWaiting (class-body environment checks, setUp,
  tearDown, the test method and its local match predicate
  _matched_event_is_correct).

Python's json module and the aws_iatk client library are external
dependencies, not part of this repository; where their behaviour is
needed it is modelled explicitly (a standard JSON value type with a
parser and serializer for the json module; a polling-loop model,
written from the specification's description, for the test kit's
wait primitive).  Machine-level details (floating point numbers) are
avoided by keeping numeric literals as their raw source text, which
is all the code under verification ever needs.
-/

/-- Characters that are brace text in generated JSON, kept out of
string literals. -/
def lbraceChar : Char := Char.ofNat 123

def rbraceChar : Char := Char.ofNat 125

/-- Python exception values that the embedded code can raise. -/
inductive PyErr where
  | jsonDecodeError (msg : String)
  | keyError (key : String)
  | typeError (msg : String)
  | unboundLocalError (name : String)
deriving DecidableEq, Repr

/-- JSON values as produced by Python's json.loads.  Numbers keep their
raw source text: the embedded code never does arithmetic on them, and
this avoids modelling floating point. -/
inductive Json where
  | null : Json
  | bool (b : Bool) : Json
  | num (raw : String) : Json
  | str (s : String) : Json
  | arr (xs : List Json) : Json
  | obj (kvs : List (String × Json)) : Json

/-- Dictionary lookup on the key/value list of a JSON object,
matching Python dict lookup (keys in an obj built by the parser are
unique, see insertKey). -/
def lookupKey : List (String × Json) → String → Option Json
  | [], _ => none
  | (k, v) :: rest, key => if k = key then some v else lookupKey rest key

/-- Insert a key into an object's key/value list with Python dict
semantics: an existing key keeps its position and gets the new value. -/
def insertKey : List (String × Json) → String → Json → List (String × Json)
  | [], k, v => [(k, v)]
  | (k2, v2) :: rest, k, v =>
      if k2 = k then (k2, v) :: rest else (k2, v2) :: insertKey rest k v

/-- Lowercase hex digit, as Python's json uses in escape sequences. -/
def hexDigitChar (n : Nat) : Char :=
  if n < 10 then Char.ofNat (48 + n) else Char.ofNat (87 + n)

/-- Four-hex-digit rendering of a code unit. -/
def hex4 (n : Nat) : String :=
  String.mk [hexDigitChar (n / 4096 % 16), hexDigitChar (n / 256 % 16),
             hexDigitChar (n / 16 % 16), hexDigitChar (n % 16)]

/-- Unicode escape for a code point, with a surrogate pair above the
basic multilingual plane, as json.dumps with ensure_ascii emits. -/
def uEscape (n : Nat) : String :=
  if n < 65536 then "\\u" ++ hex4 n
  else
    let m := n - 65536
    "\\u" ++ hex4 (55296 + m / 1024) ++ "\\u" ++ hex4 (56320 + m % 1024)

/-- Escape one character of a JSON string, following json.dumps with
its default ensure_ascii=True. -/
def escapeChar (c : Char) : String :=
  if c = '"' then "\\\""
  else if c = '\\' then "\\\\"
  else if c = '\n' then "\\n"
  else if c = '\t' then "\\t"
  else if c = '\r' then "\\r"
  else if c = Char.ofNat 8 then "\\b"
  else if c = Char.ofNat 12 then "\\f"
  else if c.toNat < 32 ∨ c.toNat > 126 then uEscape c.toNat
  else String.singleton c

/-- Serialize a JSON string literal with quotes and escapes. -/
def quoteString (s : String) : String :=
  "\"" ++ String.join (s.data.map escapeChar) ++ "\""

mutual

/-- Model of Python json.dumps with its default separators: a comma
plus space between items, a colon plus space after keys. -/
def jsonDumps : Json → String
  | Json.null => "null"
  | Json.bool b => if b then "true" else "false"
  | Json.num raw => raw
  | Json.str s => quoteString s
  | Json.arr xs => "[" ++ jsonDumpsArr xs ++ "]"
  | Json.obj kvs =>
      String.singleton lbraceChar ++ jsonDumpsObj kvs ++ String.singleton rbraceChar

/-- Comma-separated serialization of array elements. -/
def jsonDumpsArr : List Json → String
  | [] => ""
  | [x] => jsonDumps x
  | x :: y :: rest => jsonDumps x ++ ", " ++ jsonDumpsArr (y :: rest)

/-- Comma-separated serialization of object members. -/
def jsonDumpsObj : List (String × Json) → String
  | [] => ""
  | [(k, v)] => quoteString k ++ ": " ++ jsonDumps v
  | (k, v) :: m :: rest =>
      quoteString k ++ ": " ++ jsonDumps v ++ ", " ++ jsonDumpsObj (m :: rest)

end

/-- Whitespace skipping for the JSON parser (the four JSON whitespace
characters, as Python's json accepts). -/
def skipWs : List Char → List Char
  | [] => []
  | c :: cs => if c = ' ' ∨ c = '\t' ∨ c = '\n' ∨ c = '\r' then skipWs cs else c :: cs

/-- Value of one hex digit, if the character is one. -/
def hexVal (c : Char) : Option Nat :=
  if '0' ≤ c ∧ c ≤ '9' then some (c.toNat - 48)
  else if 'a' ≤ c ∧ c ≤ 'f' then some (c.toNat - 87)
  else if 'A' ≤ c ∧ c ≤ 'F' then some (c.toNat - 55)
  else none

/-- Four hex digits, for a unicode escape. -/
def parseHex4 : List Char → Option (Nat × List Char)
  | c1 :: c2 :: c3 :: c4 :: rest => do
      let n1 ← hexVal c1
      let n2 ← hexVal c2
      let n3 ← hexVal c3
      let n4 ← hexVal c4
      some (n1 * 4096 + n2 * 256 + n3 * 16 + n4, rest)
  | _ => none

/-- Short escape sequences of JSON strings. -/
def escChar (c : Char) : Option Char :=
  if c = '"' then some '"'
  else if c = '\\' then some '\\'
  else if c = '/' then some '/'
  else if c = 'b' then some (Char.ofNat 8)
  else if c = 'f' then some (Char.ofNat 12)
  else if c = 'n' then some '\n'
  else if c = 'r' then some '\r'
  else if c = 't' then some '\t'
  else none

/-- Body of a JSON string after the opening quote: the decoded
characters and the input after the closing quote.  Fuel bounds the
recursion; json_loads supplies enough for the whole input. -/
def parseStringBody : Nat → List Char → Except String (List Char × List Char)
  | 0, _ => Except.error "Unterminated string"
  | _ + 1, [] => Except.error "Unterminated string"
  | fuel + 1, c :: cs =>
      if c = '"' then Except.ok ([], cs)
      else if c = '\\' then
        match cs with
        | [] => Except.error "Unterminated string"
        | e :: cs2 =>
            if e = 'u' then
              match parseHex4 cs2 with
              | some (n, cs3) =>
                  match parseStringBody fuel cs3 with
                  | Except.ok (tail, rest) => Except.ok (Char.ofNat n :: tail, rest)
                  | Except.error msg => Except.error msg
              | none => Except.error "Invalid \\uXXXX escape"
            else
              match escChar e with
              | some c2 =>
                  match parseStringBody fuel cs2 with
                  | Except.ok (tail, rest) => Except.ok (c2 :: tail, rest)
                  | Except.error msg => Except.error msg
              | none => Except.error "Invalid \\escape"
      else
        match parseStringBody fuel cs with
        | Except.ok (tail, rest) => Except.ok (c :: tail, rest)
        | Except.error msg => Except.error msg

/-- Characters that may appear in a JSON number token. -/
def isNumChar (c : Char) : Bool :=
  c.isDigit || c = '-' || c = '+' || c = '.' || c = 'e' || c = 'E'

/-- Number token: the raw text is kept (the grammar inside the token is
not re-validated; no theorem depends on it). -/
def parseNumber (cs : List Char) : Except String (Json × List Char) :=
  let tok := cs.takeWhile isNumChar
  if tok.isEmpty then Except.error "Expecting value"
  else Except.ok (Json.num (String.mk tok), cs.dropWhile isNumChar)

/-- Literal keyword stripping: the input after the expected keyword. -/
def stripLit : List Char → List Char → Option (List Char)
  | [], rest => some rest
  | l :: ls, c :: cs => if c = l then stripLit ls cs else none
  | _ :: _, [] => none

mutual

/-- Model of Python json.loads on one value: parses a value and
returns it with the remaining input.  Fuel bounds the recursion. -/
def parseValue : Nat → List Char → Except String (Json × List Char)
  | 0, _ => Except.error "Expecting value"
  | fuel + 1, cs =>
      match skipWs cs with
      | [] => Except.error "Expecting value"
      | c :: cs2 =>
          if c = lbraceChar then
            match skipWs cs2 with
            | c2 :: cs3 =>
                if c2 = rbraceChar then Except.ok (Json.obj [], cs3)
                else parseMembers fuel (c2 :: cs3) []
            | [] => Except.error "Expecting property name"
          else if c = '[' then
            match skipWs cs2 with
            | ']' :: cs3 => Except.ok (Json.arr [], cs3)
            | cs3 => parseElements fuel cs3 []
          else if c = '"' then
            match parseStringBody (fuel + 1) cs2 with
            | Except.ok (chars, rest) => Except.ok (Json.str (String.mk chars), rest)
            | Except.error msg => Except.error msg
          else if c = 't' then
            match stripLit ['r', 'u', 'e'] cs2 with
            | some rest => Except.ok (Json.bool true, rest)
            | none => Except.error "Expecting value"
          else if c = 'f' then
            match stripLit ['a', 'l', 's', 'e'] cs2 with
            | some rest => Except.ok (Json.bool false, rest)
            | none => Except.error "Expecting value"
          else if c = 'n' then
            match stripLit ['u', 'l', 'l'] cs2 with
            | some rest => Except.ok (Json.null, rest)
            | none => Except.error "Expecting value"
          else parseNumber (c :: cs2)

/-- Members of a JSON object after the opening brace (nonempty case):
key string, colon, value, then comma or closing brace. -/
def parseMembers : Nat → List Char → List (String × Json) →
    Except String (Json × List Char)
  | 0, _, _ => Except.error "Expecting property name"
  | fuel + 1, cs, acc =>
      match skipWs cs with
      | '"' :: cs2 =>
          match parseStringBody (fuel + 1) cs2 with
          | Except.error msg => Except.error msg
          | Except.ok (keyChars, cs3) =>
              match skipWs cs3 with
              | ':' :: cs4 =>
                  match parseValue fuel cs4 with
                  | Except.error msg => Except.error msg
                  | Except.ok (v, cs5) =>
                      let acc2 := insertKey acc (String.mk keyChars) v
                      match skipWs cs5 with
                      | c6 :: cs6 =>
                          if c6 = ',' then parseMembers fuel cs6 acc2
                          else if c6 = rbraceChar then Except.ok (Json.obj acc2, cs6)
                          else Except.error "Expecting delimiter"
                      | [] => Except.error "Expecting delimiter"
              | _ => Except.error "Expecting colon delimiter"
      | _ => Except.error "Expecting property name"

/-- Elements of a JSON array after the opening bracket (nonempty case). -/
def parseElements : Nat → List Char → List Json →
    Except String (Json × List Char)
  | 0, _, _ => Except.error "Expecting value"
  | fuel + 1, cs, acc =>
      match parseValue fuel cs with
      | Except.error msg => Except.error msg
      | Except.ok (v, cs2) =>
          match skipWs cs2 with
          | ',' :: cs3 => parseElements fuel cs3 (acc ++ [v])
          | ']' :: cs3 => Except.ok (Json.arr (acc ++ [v]), cs3)
          | _ => Except.error "Expecting delimiter"

end

/-- Model of Python json.loads: whole input must be one JSON value,
possibly surrounded by whitespace. -/
def json_loads (s : String) : Except String Json :=
  match parseValue (s.length + 2) s.data with
  | Except.error msg => Except.error msg
  | Except.ok (v, rest) =>
      match skipWs rest with
      | [] => Except.ok v
      | _ => Except.error "Extra data"

/-! ## adapters/HandleStockRequest.py -/

/-- Response envelope built by the handler on its success path. -/
structure Envelope where
  statusCode : Nat
  body : String
deriving DecidableEq, Repr

/-- Diagnostic output of the handler (its two print statements). -/
inductive LogEntry where
  | stockDataPrinted (value : Json)
  | exceptionPrinted (message : String)

/-- Reading a Python local at a return site: defined if it was
assigned, an UnboundLocalError otherwise.  HandleStockRequest.py's
final statement is a read of the local named response. -/
def pyReadLocal (name : String) : Option Envelope → Except PyErr Envelope
  | some r => Except.ok r
  | none => Except.error (PyErr.unboundLocalError name)

/-- Embedding of getStocksRequest.  The external port
HttpHandler.retrieveStock is a parameter: on a given id it either
returns a value or raises.  The body assigns the local response only
inside the try block, after the retrieval; the except clause prints
the exception and falls through to the return of the (then unbound)
local.  The result pairs the printed output with the call's outcome. -/
def getStocksRequest (retrieveStock : String → Except String Json)
    (stockID : String) : List LogEntry × Except PyErr Envelope :=
  match retrieveStock stockID with
  | Except.ok stockData =>
      ([LogEntry.stockDataPrinted stockData],
       pyReadLocal "response"
         (some { statusCode := 200
                 body := jsonDumps (Json.obj [("message", stockData)]) }))
  | Except.error e =>
      ([LogEntry.exceptionPrinted e], pyReadLocal "response" none)

/-! ## tests/integration/test_by_waiting.py — class body (lines 26-42) -/

/-- Effects of executing the class body of TestMinimalPluginByWaiting
at module load time, in order. -/
inductive InitAction where
  | raiseException (msg : String)
  | constructIatkClient (region : String)
  | constructStepFunctionsClient (region : String)
deriving DecidableEq, Repr

/-- Class attributes established by a successful class-body run. -/
structure ClassConfig where
  aws_region : String
  plugin_tester_stack_name : String
deriving DecidableEq, Repr

/-- Embedding of the class body, lines 26-36: read AWS_REGION and
raise if absent, read PLUGIN_TESTER_STACK_NAME and raise if absent,
then construct the two clients.  The environment is a parameter
(os.environ.get).  Returns the action trace and, on success, the
configuration. -/
def classBodyInit (env : String → Option String) :
    List InitAction × Option ClassConfig :=
  match env "AWS_REGION" with
  | none => ([InitAction.raiseException "AWS_REGION environment variable is required"], none)
  | some region =>
      match env "PLUGIN_TESTER_STACK_NAME" with
      | none => ([InitAction.raiseException "PLUGIN_TESTER_STACK_NAME environment variable is required"], none)
      | some stackName =>
          ([InitAction.constructIatkClient region,
            InitAction.constructStepFunctionsClient region],
           some { aws_region := region, plugin_tester_stack_name := stackName })

/-- Polling deadline of the test, line 39. -/
def SLA_TIMEOUT_SECONDS : Nat := 20

/-! ## tests/integration/test_by_waiting.py — the match predicate -/

/-- Python subscript event[key]: the value for a present key of a
dict, a KeyError for an absent key, a TypeError when the subscripted
value is not a dict at all. -/
def pyGetItem (event : Json) (key : String) : Except PyErr Json :=
  match event with
  | Json.obj kvs =>
      match lookupKey kvs key with
      | some v => Except.ok v
      | none => Except.error (PyErr.keyError key)
  | _ => Except.error (PyErr.typeError "value is not subscriptable by a string key")

/-- Python equality between a JSON value and a string literal: strings
compare by content, every other value compares unequal. -/
def jsonEqString (v : Json) (s : String) : Bool :=
  match v with
  | Json.str t => t = s
  | _ => false

/-- Embedding of the local predicate _matched_event_is_correct,
lines 119-124: json.loads the payload, then the conjunction
event["source"] == "video.plugin.PythonMinimalPlugin" and
event["detail-type"] == "plugin-complete", with Python's
short-circuit: the detail-type subscript only runs when the source
comparison was true.  Raised exceptions propagate as errors. -/
def _matched_event_is_correct (received : String) : Except PyErr Bool :=
  match json_loads received with
  | Except.error msg => Except.error (PyErr.jsonDecodeError msg)
  | Except.ok event =>
      match pyGetItem event "source" with
      | Except.error e => Except.error e
      | Except.ok s =>
          if jsonEqString s "video.plugin.PythonMinimalPlugin" then
            match pyGetItem event "detail-type" with
            | Except.error e => Except.error e
            | Except.ok d => Except.ok (jsonEqString d "plugin-complete")
          else Except.ok false

/-! ## The wait primitive of the test kit -/

/-- Modelled from the spec: aws_iatk.wait_until_event_matched is part
of the Integrated Application Test Kit client library, not of this
repository.  The spec describes it as a blocking poll that feeds each
received event to the predicate, succeeds at the first match, and
fails once the deadline elapses with no match.  Events are modelled
as the chronological list of (arrival time, payload) pairs the
listener would deliver; the result pairs the boolean outcome with the
time at which the call returns: the first matching event's arrival
time on success, the full timeout on failure.  An event arriving at
or after the deadline is never seen, because waiting has stopped. -/
def wait_until_event_matched (events : List (Nat × String))
    (assertion_fn : String → Bool) (timeout_seconds : Nat) : Bool × Nat :=
  match events with
  | [] => (false, timeout_seconds)
  | (t, e) :: rest =>
      if t < timeout_seconds then
        if assertion_fn e then (true, t)
        else wait_until_event_matched rest assertion_fn timeout_seconds
      else (false, timeout_seconds)

/-- Outcome of one run of a unittest test method. -/
inductive TestOutcome where
  | passed
  | assertionFailure
  | errored
deriving DecidableEq, Repr

/-- Embedding of unittest's assertTrue: a false argument reports an
assertion failure, a true one lets the test pass; no exception. -/
def assertTrue (b : Bool) : TestOutcome :=
  if b then TestOutcome.passed else TestOutcome.assertionFailure

/-! ## tests/integration/test_by_waiting.py — fixture and test method -/

/-- Calls the test class makes on its two clients, in order.  String
arguments that Python reads from instance attributes defaulting to
None are carried as Option String. -/
inductive ClientOp where
  | getStackOutputs (stackName : String) (outputNames : List String)
  | addListener (eventBusName : String) (ruleName : String)
  | removeListeners (ids : List (Option String))
  | startExecution (stateMachineArn : Option String) (input : String)
  | waitUntilEventMatched (listenerId : Option String) (timeoutSeconds : Nat)
deriving DecidableEq, Repr

/-- Responses of the deployed stack and of the test kit during one
test run: the two stack outputs setUp asks for, and the id
add_listener mints for the cloned rule. -/
structure IatkEnv where
  workflowArn : String
  successRuleName : String
  newListenerId : String

/-- Instance attributes of TestMinimalPluginByWaiting that the fixture
methods write; all default to None at class level (lines 40-42). -/
structure FixtureState where
  listener_id : Option String
  plugin_tester_arn : Option String
  existing_rule_name : Option String
deriving DecidableEq, Repr

/-- Class-level defaults of the fixture attributes. -/
def initialFixtureState : FixtureState :=
  { listener_id := none, plugin_tester_arn := none, existing_rule_name := none }

/-- Embedding of setUp, lines 44-73: fetch the two stack outputs,
store them, attach a listener to bus "default" cloned from the looked
up rule, store the listener id.  Returns the updated state and the
client calls made, in order. -/
def setUp (env : IatkEnv) (stackName : String) (s : FixtureState) :
    FixtureState × List ClientOp :=
  let s1 := { s with plugin_tester_arn := some env.workflowArn,
                     existing_rule_name := some env.successRuleName }
  let s2 := { s1 with listener_id := some env.newListenerId }
  (s2,
   [ClientOp.getStackOutputs stackName
      ["PluginLifecycleWorkflow", "PluginSuccessEventRuleName"],
    ClientOp.addListener "default" env.successRuleName])

/-- Embedding of tearDown, lines 75-85: one remove_listeners call on
the stored listener id. -/
def tearDown (s : FixtureState) : List ClientOp :=
  [ClientOp.removeListeners [s.listener_id]]

/-- Embedding of the trigger_event dict built at lines 99-102. -/
def trigger_event : Json :=
  Json.obj [("eventHook", Json.str "postValidate"),
            ("pluginTitle", Json.str "PythonMinimalPlugin")]

/-- Behaviour of the wait call within one run of the test body: it
matched an event, it timed out, or the client raised an
infrastructure error out of the call. -/
inductive WaitBehavior where
  | matched
  | timedOut
  | raisedError
deriving DecidableEq, Repr

/-- Embedding of test_minimal_plugin_event_published_waiting, lines
87-132: start the workflow execution with the serialized trigger
event, wait on the listener with the match predicate for
SLA_TIMEOUT_SECONDS, then assertTrue the result.  Returns the client
calls made and the outcome of the method: assertTrue decides it when
the wait returns, and an error raised by the wait ends the method as
an error. -/
def testBody (s : FixtureState) (wait : WaitBehavior) :
    List ClientOp × TestOutcome :=
  let ops := [ClientOp.startExecution s.plugin_tester_arn (jsonDumps trigger_event),
              ClientOp.waitUntilEventMatched s.listener_id SLA_TIMEOUT_SECONDS]
  match wait with
  | WaitBehavior.matched => (ops, assertTrue true)
  | WaitBehavior.timedOut => (ops, assertTrue false)
  | WaitBehavior.raisedError => (ops, TestOutcome.errored)

/-- Modelled from the spec: the unittest runner (Python standard
library, outside src/) runs setUp, then the test method, then — once
setUp has returned — tearDown unconditionally, whether the method
passed, failed an assertion, or raised; the spec's teardown step is
"unconditionally deregister the listener handle, independent of wait
outcome".  One run of TestMinimalPluginByWaiting under that contract:
the full client-call trace and the test outcome. -/
def runTestCase (env : IatkEnv) (stackName : String) (wait : WaitBehavior) :
    List ClientOp × TestOutcome :=
  let (s1, setUpOps) := setUp env stackName initialFixtureState
  let (bodyOps, outcome) := testBody s1 wait
  (setUpOps ++ bodyOps ++ tearDown s1, outcome)

/-- Number of add_listener calls in a trace. -/
def acquireCount : List ClientOp → Nat
  | [] => 0
  | ClientOp.addListener _ _ :: rest => 1 + acquireCount rest
  | _ :: rest => acquireCount rest

/-- Number of times a trace asks for a given listener id to be
removed, across all remove_listeners calls. -/
def releaseCount (trace : List ClientOp) (id : String) : Nat :=
  match trace with
  | [] => 0
  | ClientOp.removeListeners ids :: rest => ids.count (some id) + releaseCount rest id
  | _ :: rest => releaseCount rest id

/-- Number of start_execution calls in a trace. -/
def startExecutionCount : List ClientOp → Nat
  | [] => 0
  | ClientOp.startExecution _ _ :: rest => 1 + startExecutionCount rest
  | _ :: rest => startExecutionCount rest

/-- Environment with both required variables present, for concrete
instantiations. -/
def envWithBoth : String → Option String := fun k =>
  if k = "AWS_REGION" then some "eu-west-1"
  else if k = "PLUGIN_TESTER_STACK_NAME" then some "plugin-tester" else none

/-- Boolean string-comparison of a JSON value succeeds exactly on the
string constructor with equal content. -/
theorem jsonEqString_eq_true_iff (v : Json) (s : String) :
    jsonEqString v s = true ↔ v = Json.str s := by
  cases v <;> simp [jsonEqString]

/-- When no delivered event satisfies the predicate, the wait loop
runs to the deadline and reports no match at the full timeout. -/
theorem wait_no_match (events : List (Nat × String))
    (assertion_fn : String → Bool) (timeout_seconds : Nat)
    (hnone : ∀ te ∈ events, assertion_fn te.2 = false) :
    wait_until_event_matched events assertion_fn timeout_seconds =
      (false, timeout_seconds) := by
  induction events with
  | nil => rfl
  | cons te rest ih =>
      obtain ⟨t, e⟩ := te
      have he : assertion_fn e = false := hnone (t, e) (List.mem_cons_self _ _)
      simp only [wait_until_event_matched, he]
      by_cases h1 : t < timeout_seconds
      · simp only [if_pos h1, Bool.false_eq_true, if_false]
        exact ih fun te2 hm => hnone te2 (List.mem_cons_of_mem _ hm)
      · simp only [if_neg h1]

/-- C2: when the external retrieval capability raises, getStocksRequest
prints the error and produces no envelope: the return site reads the
never-assigned local response, so the call ends in an
UnboundLocalError instead of a defined result. -/
theorem C2_error_path_returns_no_envelope
    (retrieveStock : String → Except String Json) (stockID e : String)
    (h : retrieveStock stockID = Except.error e) :
    getStocksRequest retrieveStock stockID =
      ([LogEntry.exceptionPrinted e],
       Except.error (PyErr.unboundLocalError "response")) := by
  simp only [getStocksRequest, h, pyReadLocal]

/-- Witness for C2 at a concrete failing retrieval. -/
theorem C2_error_path_returns_no_envelope_witness :
    getStocksRequest (fun _ => Except.error "ConnectionError") "AMZN" =
      ([LogEntry.exceptionPrinted "ConnectionError"],
       Except.error (PyErr.unboundLocalError "response")) :=
  C2_error_path_returns_no_envelope (fun _ => Except.error "ConnectionError")
    "AMZN" "ConnectionError" rfl

/-- C3: when retrieval succeeds with value v, getStocksRequest returns
an envelope with statusCode 200 whose body is the serialized text of
the object mapping "message" to v. -/
theorem C3_success_returns_200_with_value
    (retrieveStock : String → Except String Json) (stockID : String) (v : Json)
    (h : retrieveStock stockID = Except.ok v) :
    getStocksRequest retrieveStock stockID =
      ([LogEntry.stockDataPrinted v],
       Except.ok { statusCode := 200
                   body := jsonDumps (Json.obj [("message", v)]) }) := by
  simp only [getStocksRequest, h, pyReadLocal]

/-- Witness for C3 at a concrete successful retrieval, with the body
evaluated to its literal text. -/
theorem C3_success_returns_200_with_value_witness :
    getStocksRequest (fun _ => Except.ok (Json.str "184.99")) "AMZN" =
      ([LogEntry.stockDataPrinted (Json.str "184.99")],
       Except.ok { statusCode := 200
                   body := "\x7b\"message\": \"184.99\"\x7d" }) :=
  (C3_success_returns_200_with_value (fun _ => Except.ok (Json.str "184.99"))
    "AMZN" (Json.str "184.99") rfl).trans rfl

/-- C7: a missing AWS_REGION or PLUGIN_TESTER_STACK_NAME makes the
class body raise at once — its whole action trace is the single raise,
with no client constructed and no retry — while with both present no
such exception is raised and the configuration is established. -/
theorem C7_missing_env_is_fatal_at_startup (env : String → Option String) :
    ((env "AWS_REGION" = none ∨ env "PLUGIN_TESTER_STACK_NAME" = none) →
      (classBodyInit env).2 = none ∧
      (∃ msg, (classBodyInit env).1 = [InitAction.raiseException msg]) ∧
      (∀ r, InitAction.constructIatkClient r ∉ (classBodyInit env).1 ∧
            InitAction.constructStepFunctionsClient r ∉ (classBodyInit env).1)) ∧
    (∀ region stackName, env "AWS_REGION" = some region →
      env "PLUGIN_TESTER_STACK_NAME" = some stackName →
      (∀ msg, InitAction.raiseException msg ∉ (classBodyInit env).1) ∧
      (classBodyInit env).2 =
        some { aws_region := region, plugin_tester_stack_name := stackName }) := by
  constructor
  · intro hmiss
    cases h1 : env "AWS_REGION" with
    | none => simp [classBodyInit, h1]
    | some region =>
        cases h2 : env "PLUGIN_TESTER_STACK_NAME" with
        | none => simp [classBodyInit, h1, h2]
        | some stackName =>
            rcases hmiss with hm | hm
            · rw [h1] at hm; cases hm
            · rw [h2] at hm; cases hm
  · intro region stackName h1 h2
    simp [classBodyInit, h1, h2]

/-- Witness for C7: a concrete empty environment raises with no client
constructed, and a concrete full environment raises nothing. -/
theorem C7_missing_env_is_fatal_at_startup_witness :
    ((classBodyInit (fun _ => none)).2 = none ∧
      (∃ msg, (classBodyInit (fun _ => none)).1 = [InitAction.raiseException msg]) ∧
      (∀ r, InitAction.constructIatkClient r ∉ (classBodyInit (fun _ => none)).1 ∧
            InitAction.constructStepFunctionsClient r ∉ (classBodyInit (fun _ => none)).1)) ∧
    ((∀ msg, InitAction.raiseException msg ∉ (classBodyInit envWithBoth).1) ∧
     (classBodyInit envWithBoth).2 =
       some { aws_region := "eu-west-1", plugin_tester_stack_name := "plugin-tester" }) :=
  ⟨(C7_missing_env_is_fatal_at_startup (fun _ => none)).1 (Or.inl rfl),
   (C7_missing_env_is_fatal_at_startup envWithBoth).2 "eu-west-1" "plugin-tester"
     (by decide) (by decide)⟩

/-- C9 counterexample: on the empty payload — not valid JSON — the
match predicate raises a JSON decode error; it does not return a
boolean, so it is not total over all payload strings. -/
theorem C9_predicate_raises_on_invalid_json :
    _matched_event_is_correct "" =
      Except.error (PyErr.jsonDecodeError "Expecting value") ∧
    ∀ b : Bool, _matched_event_is_correct "" ≠ Except.ok b := by
  have hc : _matched_event_is_correct "" =
      Except.error (PyErr.jsonDecodeError "Expecting value") := rfl
  refine ⟨hc, fun b hb => ?_⟩
  rw [hc] at hb
  exact Except.noConfusion hb

/-- C9 amended: the predicate is a pure function and returns a boolean
without raising on every payload that parses as a JSON object carrying
both a "source" and a "detail-type" key; on payloads that are not
valid JSON, or whose parsed value lacks a needed key or is not an
object, it raises (JSONDecodeError, KeyError or TypeError) instead of
returning false. -/
theorem C9_predicate_total_on_wellformed_events (received : String)
    (kvs : List (String × Json))
    (h : json_loads received = Except.ok (Json.obj kvs))
    (hs : (lookupKey kvs "source").isSome = true)
    (hd : (lookupKey kvs "detail-type").isSome = true) :
    ∃ b, _matched_event_is_correct received = Except.ok b := by
  simp only [_matched_event_is_correct, h, pyGetItem]
  cases h1 : lookupKey kvs "source" with
  | none => rw [h1] at hs; cases hs
  | some s =>
      cases h2 : lookupKey kvs "detail-type" with
      | none => rw [h2] at hd; cases hd
      | some d =>
          by_cases hv : jsonEqString s "video.plugin.PythonMinimalPlugin" = true
          · exact ⟨jsonEqString d "plugin-complete", by simp [hv]⟩
          · exact ⟨false, by simp [hv]⟩

/-- Witness for the amended C9 at a concrete well-formed payload that
is not the sought event. -/
theorem C9_predicate_total_on_wellformed_events_witness :
    ∃ b, _matched_event_is_correct
      "\x7b\"source\": \"video.other\", \"detail-type\": \"x\"\x7d" =
        Except.ok b :=
  C9_predicate_total_on_wellformed_events _
    [("source", Json.str "video.other"), ("detail-type", Json.str "x")]
    rfl rfl rfl

/-- C10: the predicate's outcome depends only on the "source" and
"detail-type" members of the parsed payload: two payloads parsing to
objects that agree on those two members get the same outcome,
whatever their other members are. -/
theorem C10_predicate_depends_only_on_two_fields
    (r1 r2 : String) (kvs1 kvs2 : List (String × Json))
    (h1 : json_loads r1 = Except.ok (Json.obj kvs1))
    (h2 : json_loads r2 = Except.ok (Json.obj kvs2))
    (hs : lookupKey kvs1 "source" = lookupKey kvs2 "source")
    (hd : lookupKey kvs1 "detail-type" = lookupKey kvs2 "detail-type") :
    _matched_event_is_correct r1 = _matched_event_is_correct r2 := by
  simp only [_matched_event_is_correct, h1, h2, pyGetItem]
  rw [← hs, ← hd]

/-- Witness for C10: two payloads with the same "source" and
"detail-type" but different member order and an extra member in the
first get the same outcome. -/
theorem C10_predicate_depends_only_on_two_fields_witness :
    _matched_event_is_correct
      "\x7b\"detail-type\": \"plugin-complete\", \"source\": \"video.plugin.PythonMinimalPlugin\", \"id\": 7\x7d" =
    _matched_event_is_correct
      "\x7b\"source\": \"video.plugin.PythonMinimalPlugin\", \"detail-type\": \"plugin-complete\"\x7d" :=
  C10_predicate_depends_only_on_two_fields _ _
    [("detail-type", Json.str "plugin-complete"),
     ("source", Json.str "video.plugin.PythonMinimalPlugin"),
     ("id", Json.num "7")]
    [("source", Json.str "video.plugin.PythonMinimalPlugin"),
     ("detail-type", Json.str "plugin-complete")]
    rfl rfl rfl rfl

/-- The predicate accepts a parsed payload exactly when its "source"
member is the string "video.plugin.PythonMinimalPlugin" and its
"detail-type" member is the string "plugin-complete". -/
theorem matched_ok_true_iff (received : String) (event : Json)
    (h : json_loads received = Except.ok event) :
    _matched_event_is_correct received = Except.ok true ↔
      pyGetItem event "source" =
        Except.ok (Json.str "video.plugin.PythonMinimalPlugin") ∧
      pyGetItem event "detail-type" = Except.ok (Json.str "plugin-complete") := by
  simp only [_matched_event_is_correct, h]
  cases hg : pyGetItem event "source" with
  | error e => simp
  | ok s =>
      by_cases hv : jsonEqString s "video.plugin.PythonMinimalPlugin" = true
      · have hs := (jsonEqString_eq_true_iff _ _).mp hv
        subst hs
        simp only [hv, if_true]
        cases hd2 : pyGetItem event "detail-type" with
        | error e2 => simp
        | ok d => simp [jsonEqString_eq_true_iff]
      · have hs : s ≠ Json.str "video.plugin.PythonMinimalPlugin" :=
          fun hEq => hv ((jsonEqString_eq_true_iff _ _).mpr hEq)
        rw [Bool.not_eq_true] at hv
        simp [hv, hs]

/-- C8: the trigger record is the two-member dict with eventHook
postValidate and pluginTitle PythonMinimalPlugin; every run of the
test sends exactly one start_execution, always carrying that record
serialized; and the match predicate accepts a parsed payload exactly
when its "source" is "video.plugin." followed by that pluginTitle and
its "detail-type" is "plugin-complete". -/
theorem C8_trigger_record_and_match_predicate :
    trigger_event = Json.obj [("eventHook", Json.str "postValidate"),
                              ("pluginTitle", Json.str "PythonMinimalPlugin")] ∧
    (∀ env stackName wait,
      startExecutionCount (runTestCase env stackName wait).1 = 1 ∧
      ∀ arn input,
        ClientOp.startExecution arn input ∈ (runTestCase env stackName wait).1 →
          input = jsonDumps trigger_event) ∧
    (∀ received event, json_loads received = Except.ok event →
      (_matched_event_is_correct received = Except.ok true ↔
        pyGetItem event "source" =
          Except.ok (Json.str ("video.plugin." ++ "PythonMinimalPlugin")) ∧
        pyGetItem event "detail-type" = Except.ok (Json.str "plugin-complete"))) := by
  refine ⟨rfl, ?_, ?_⟩
  · intro env stackName wait
    refine ⟨?_, ?_⟩
    · cases wait <;> rfl
    · intro arn input hmem
      have htrace : (runTestCase env stackName wait).1 =
          [ClientOp.getStackOutputs stackName
             ["PluginLifecycleWorkflow", "PluginSuccessEventRuleName"],
           ClientOp.addListener "default" env.successRuleName,
           ClientOp.startExecution (some env.workflowArn) (jsonDumps trigger_event),
           ClientOp.waitUntilEventMatched (some env.newListenerId) SLA_TIMEOUT_SECONDS,
           ClientOp.removeListeners [some env.newListenerId]] := by
        cases wait <;> rfl
      rw [htrace] at hmem
      simp only [List.mem_cons, List.not_mem_nil, or_false,
        ClientOp.startExecution.injEq] at hmem
      rcases hmem with h | h | ⟨h1, h2⟩ | h | h
      · exact absurd h (by simp)
      · exact absurd h (by simp)
      · exact h2
      · exact absurd h (by simp)
      · exact absurd h (by simp)
  · intro received event h
    have happ : ("video.plugin." ++ "PythonMinimalPlugin" : String) =
        "video.plugin.PythonMinimalPlugin" := rfl
    rw [happ]
    exact matched_ok_true_iff received event h

/-- Witness for C8: the matching event payload is accepted, and a
concrete run sends exactly one execution start. -/
theorem C8_trigger_record_and_match_predicate_witness :
    _matched_event_is_correct
      "\x7b\"source\": \"video.plugin.PythonMinimalPlugin\", \"detail-type\": \"plugin-complete\"\x7d" =
      Except.ok true ∧
    startExecutionCount
      (runTestCase ⟨"arn-1", "rule-1", "listener-1"⟩ "stack-1" WaitBehavior.matched).1 = 1 :=
  ⟨(C8_trigger_record_and_match_predicate.2.2
      "\x7b\"source\": \"video.plugin.PythonMinimalPlugin\", \"detail-type\": \"plugin-complete\"\x7d"
      (Json.obj [("source", Json.str "video.plugin.PythonMinimalPlugin"),
                 ("detail-type", Json.str "plugin-complete")]) rfl).mpr ⟨rfl, rfl⟩,
   (C8_trigger_record_and_match_predicate.2.1
      ⟨"arn-1", "rule-1", "listener-1"⟩ "stack-1" WaitBehavior.matched).1⟩

/-- C4: when a matching event arrives strictly before the deadline,
the wait returns true at the arrival time of the first matching event
— a time strictly below the deadline, so no remainder of the deadline
is waited out. -/
theorem C4_wait_returns_true_at_first_match
    (events : List (Nat × String)) (assertion_fn : String → Bool)
    (timeout_seconds : Nat)
    (hchron : events.Pairwise (fun a b => a.1 ≤ b.1))
    (hmatch : ∃ te ∈ events, te.1 < timeout_seconds ∧ assertion_fn te.2 = true) :
    (wait_until_event_matched events assertion_fn timeout_seconds).1 = true ∧
    (wait_until_event_matched events assertion_fn timeout_seconds).2 <
      timeout_seconds ∧
    (∃ e, ((wait_until_event_matched events assertion_fn timeout_seconds).2, e)
        ∈ events ∧ assertion_fn e = true) ∧
    (∀ te ∈ events, te.1 < timeout_seconds → assertion_fn te.2 = true →
      (wait_until_event_matched events assertion_fn timeout_seconds).2 ≤ te.1) := by
  induction events with
  | nil =>
      obtain ⟨te, hmem, _⟩ := hmatch
      exact absurd hmem (List.not_mem_nil te)
  | cons hd rest ih =>
      obtain ⟨t, e⟩ := hd
      rw [List.pairwise_cons] at hchron
      obtain ⟨hle, hrest⟩ := hchron
      by_cases h1 : t < timeout_seconds
      · by_cases h2 : assertion_fn e = true
        · have hres : wait_until_event_matched ((t, e) :: rest) assertion_fn
              timeout_seconds = (true, t) := by
            simp only [wait_until_event_matched, if_pos h1, h2, if_true]
          rw [hres]
          refine ⟨rfl, h1, ⟨e, List.mem_cons_self _ _, h2⟩, ?_⟩
          intro te hmem _ _
          rcases List.mem_cons.mp hmem with hh | hh
          · rw [hh]
          · exact hle te hh
        · have hres : wait_until_event_matched ((t, e) :: rest) assertion_fn
              timeout_seconds =
              wait_until_event_matched rest assertion_fn timeout_seconds := by
            rw [Bool.not_eq_true] at h2
            simp only [wait_until_event_matched, if_pos h1, h2,
              Bool.false_eq_true, if_false]
          have hmatch2 : ∃ te ∈ rest, te.1 < timeout_seconds ∧
              assertion_fn te.2 = true := by
            obtain ⟨te, hmem, hlt, hfn⟩ := hmatch
            rcases List.mem_cons.mp hmem with hh | hh
            · rw [hh] at hfn
              exact absurd hfn h2
            · exact ⟨te, hh, hlt, hfn⟩
          obtain ⟨ih1, ih2, ih3, ih4⟩ := ih hrest hmatch2
          rw [hres]
          refine ⟨ih1, ih2, ?_, ?_⟩
          · obtain ⟨e2, hmem2, hfn2⟩ := ih3
            exact ⟨e2, List.mem_cons_of_mem _ hmem2, hfn2⟩
          · intro te hmem hlt hfn
            rcases List.mem_cons.mp hmem with hh | hh
            · rw [hh] at hfn
              exact absurd hfn h2
            · exact ih4 te hh hlt hfn
      · exfalso
        obtain ⟨te, hmem, hlt, _⟩ := hmatch
        rcases List.mem_cons.mp hmem with hh | hh
        · rw [hh] at hlt
          exact h1 hlt
        · exact h1 (lt_of_le_of_lt (hle te hh) hlt)

/-- Witness for C4 at a concrete event timeline: a non-matching event
at time 3, matching events at times 5 and 9, deadline 20. -/
theorem C4_wait_returns_true_at_first_match_witness :
    (wait_until_event_matched [(3, "a"), (5, "m"), (9, "m")]
      (fun s => s == "m") 20).1 = true ∧
    (wait_until_event_matched [(3, "a"), (5, "m"), (9, "m")]
      (fun s => s == "m") 20).2 < 20 := by
  have h := C4_wait_returns_true_at_first_match [(3, "a"), (5, "m"), (9, "m")]
    (fun s => s == "m") 20 (by decide) (by decide)
  exact ⟨h.1, h.2.1⟩

/-- C5: when no delivered event satisfies the predicate, the wait
returns false, and it returns exactly at the full deadline
SLA_TIMEOUT_SECONDS = 20, never before. -/
theorem C5_wait_returns_false_after_full_deadline
    (events : List (Nat × String)) (assertion_fn : String → Bool)
    (hnone : ∀ te ∈ events, assertion_fn te.2 = false) :
    SLA_TIMEOUT_SECONDS = 20 ∧
    wait_until_event_matched events assertion_fn SLA_TIMEOUT_SECONDS =
      (false, SLA_TIMEOUT_SECONDS) :=
  ⟨rfl, wait_no_match events assertion_fn SLA_TIMEOUT_SECONDS hnone⟩

/-- Witness for C5 at a concrete timeline with no matching event. -/
theorem C5_wait_returns_false_after_full_deadline_witness :
    wait_until_event_matched [(1, "x"), (6, "y")] (fun _ => false)
      SLA_TIMEOUT_SECONDS = (false, SLA_TIMEOUT_SECONDS) :=
  (C5_wait_returns_false_after_full_deadline [(1, "x"), (6, "y")]
    (fun _ => false) (by decide)).2

/-- C6: a deadline that passes with no matching event ends the wait
with the value false — turned by assertTrue into a reported assertion
failure, not an error — and a timed-out run of the test body likewise
ends in an assertion failure, not an error. -/
theorem C6_timeout_reports_failure_not_crash
    (events : List (Nat × String)) (assertion_fn : String → Bool)
    (hnone : ∀ te ∈ events, assertion_fn te.2 = false) :
    (wait_until_event_matched events assertion_fn SLA_TIMEOUT_SECONDS).1 =
      false ∧
    assertTrue
      (wait_until_event_matched events assertion_fn SLA_TIMEOUT_SECONDS).1 =
      TestOutcome.assertionFailure ∧
    assertTrue
      (wait_until_event_matched events assertion_fn SLA_TIMEOUT_SECONDS).1 ≠
      TestOutcome.errored ∧
    (∀ s, (testBody s WaitBehavior.timedOut).2 = TestOutcome.assertionFailure ∧
          (testBody s WaitBehavior.timedOut).2 ≠ TestOutcome.errored) := by
  have h := wait_no_match events assertion_fn SLA_TIMEOUT_SECONDS hnone
  rw [h]
  refine ⟨rfl, rfl, by simp [assertTrue], ?_⟩
  intro s
  exact ⟨rfl, by simp [testBody, assertTrue]⟩

/-- Witness for C6 at a concrete timeline with no matching event. -/
theorem C6_timeout_reports_failure_not_crash_witness :
    assertTrue
      (wait_until_event_matched [(2, "z")] (fun _ => false)
        SLA_TIMEOUT_SECONDS).1 = TestOutcome.assertionFailure :=
  (C6_timeout_reports_failure_not_crash [(2, "z")] (fun _ => false)
    (by decide)).2.1

/-- C1: on every run of the test case — whether the body passes, fails
its assertion, or raises — the trace holds exactly one add_listener
and exactly one remove_listeners request for the id that add_listener
returned: release-count equals acquire-count equals one on every exit
path. -/
theorem C1_listener_released_exactly_once
    (env : IatkEnv) (stackName : String) (wait : WaitBehavior) :
    acquireCount (runTestCase env stackName wait).1 = 1 ∧
    releaseCount (runTestCase env stackName wait).1 env.newListenerId = 1 ∧
    releaseCount (runTestCase env stackName wait).1 env.newListenerId =
      acquireCount (runTestCase env stackName wait).1 := by
  have hacq : acquireCount (runTestCase env stackName wait).1 = 1 := by
    cases wait <;> rfl
  have hrel : releaseCount (runTestCase env stackName wait).1
      env.newListenerId = 1 := by
    cases wait <;>
      simp [runTestCase, setUp, testBody, tearDown, initialFixtureState,
        releaseCount, List.count_cons, List.count_nil]
  exact ⟨hacq, hrel, hrel.trans hacq.symm⟩
